import Mathlib

/-!
Verification development for a library circulation tracker.

The repository's visible code is presentation-layer (a dashboard, a list
view with checkout/return/renew actions, and a barcode-entry widget) that
calls a remote circulation service.  The UI components are embedded
directly from the source files; the circulation core (checkout, return,
renew, overdue classification) is not present in the repository and is
modelled from the specification where a claim needs it.

Time is modelled as `Int` milliseconds (JS `Date` epoch milliseconds);
JS numbers holding counts are modelled as `Nat`, possibly-undefined JS
fields as `Option`.
-/

namespace Dashboard

/-- The `overdueStats` object received from the service layer
(`data.overdueStats` in `processDashboardData`); every field may be
absent (`undefined` in JS). -/
structure OverdueStats where
  overdue1Week : Option Nat
  overdue2Weeks : Option Nat
  overdueMoreThan2Weeks : Option Nat
  totalOverdue : Option Nat
deriving DecidableEq

/-- The `itemStats` object of the dashboard component. -/
structure ItemStats where
  overdueCount : Option Nat
  totalCount : Option Nat
  overduePercentage : Option Nat
deriving DecidableEq

/-- JS `x || 0` on a possibly-undefined count. -/
def orZero (x : Option Nat) : Nat := x.getD 0

/-- JS falsiness of a possibly-undefined count: `undefined` and `0` are
falsy. -/
def natFalsy (x : Option Nat) : Bool :=
  match x with
  | none => true
  | some n => n == 0

/-- `reconcileOverdueData` of the dashboard component (source lines
68-97): computes `calculatedTotal` from the three buckets, overwrites
`itemStats.overdueCount` when it is falsy or differs, always rewrites
`overdueStats.totalOverdue` to the calculated total, and recomputes the
overdue percentage when `totalCount > 0`.  JS float division with
`Math.round` is modelled as exact rational rounding
`⌊(200 a + b) / (2 b)⌋`. -/
def reconcileOverdueData (itemStats : ItemStats) (overdueStats : OverdueStats) :
    ItemStats × OverdueStats :=
  let calculatedTotal :=
    orZero overdueStats.overdue1Week +
    orZero overdueStats.overdue2Weeks +
    orZero overdueStats.overdueMoreThan2Weeks
  let itemStats1 :=
    if natFalsy itemStats.overdueCount ∨ itemStats.overdueCount ≠ some calculatedTotal then
      { itemStats with overdueCount := some calculatedTotal }
    else itemStats
  let overdueStats1 := { overdueStats with totalOverdue := some calculatedTotal }
  let pct :=
    (200 * orZero itemStats1.overdueCount + orZero itemStats1.totalCount) /
      (2 * orZero itemStats1.totalCount)
  let itemStats2 :=
    if 0 < orZero itemStats1.totalCount then
      { itemStats1 with overduePercentage := some pct }
    else itemStats1
  (itemStats2, overdueStats1)

end Dashboard

namespace ListView

/-- A library item record as the list view receives it; the `statistics`
getter reads only `Current_Status__c`, a free-form status string. -/
structure ItemRec where
  Barcode__c : String
  Item_Type__c : String
  Current_Status__c : String
deriving DecidableEq

/-- The object returned by the `statistics` getter. -/
structure Stats where
  total : Nat
  available : Nat
  checkedOut : Nat
  overdue : Nat
  maintenance : Nat
deriving DecidableEq

/-- One step of the `forEach`/`switch` loop in the `statistics` getter:
increments the counter matching the status string, and leaves every
counter unchanged on any other status (no `default` case in the switch). -/
def statsAccumulate (st : Stats) (status : String) : Stats :=
  if status = "Available" then { st with available := st.available + 1 }
  else if status = "Checked Out" then { st with checkedOut := st.checkedOut + 1 }
  else if status = "Overdue" then { st with overdue := st.overdue + 1 }
  else if status = "Maintenance" then { st with maintenance := st.maintenance + 1 }
  else st

/-- The `statistics` getter of `libraryItemsList` (source lines 218-245):
`total` is the length of `allItems`, and the four counters are accumulated
by the `forEach` loop over the items' statuses. -/
def statistics (items : List ItemRec) : Stats :=
  items.foldl (fun st it => statsAccumulate st it.Current_Status__c)
    { total := items.length, available := 0, checkedOut := 0, overdue := 0, maintenance := 0 }

end ListView

namespace Scanner

/-- An entry of the barcode widget's `processingQueue`. -/
structure QueueItem where
  id : Int
  barcode : String
deriving DecidableEq

/-- An entry of the barcode widget's `recentHistory`. -/
structure HistoryEntry where
  id : Int
  barcode : String
  itemName : String
  success : Bool
deriving DecidableEq

/-- The component state of `barcodeScanner` that `processScannedBarcode`
reads or writes before its server call. -/
structure ScannerState where
  currentMode : String
  processingQueue : List QueueItem
  recentHistory : List HistoryEntry
  successCount : Nat
  errorCount : Nat
  isProcessing : Bool
  lastScanSuccess : Bool
  lastScanError : Bool
deriving DecidableEq

/-- A pending invocation of the Apex `processBarcodeAction` call. -/
structure ServerCall where
  barcode : String
  action : String
deriving DecidableEq

/-- The synchronous prefix of `processScannedBarcode` (source lines
87-102), up to the `await` of the server call: if `isProcessing` is set
the invocation returns at once with the state untouched and no call
issued; otherwise it appends a queue entry (`id` is the JS `Date.now()`
value, passed in as `qid`), raises `isProcessing` and clears the scan
flags, and issues the server call for the current mode. -/
def processScannedBarcode (s : ScannerState) (barcode : String) (qid : Int) :
    ScannerState × Option ServerCall :=
  if s.isProcessing then (s, none)
  else
    ({ s with
        processingQueue := s.processingQueue ++ [{ id := qid, barcode := barcode }],
        isProcessing := true,
        lastScanSuccess := false,
        lastScanError := false },
      some { barcode := barcode, action := s.currentMode })

end Scanner

namespace Core

/-- Modelled from the spec: the six item statuses of the circulation
core (`Available, CheckedOut, Overdue, Maintenance, Lost, Retired`); the
core's implementation (the Apex service layer) is not in the repository. -/
inductive Status where
  | Available
  | CheckedOut
  | Overdue
  | Maintenance
  | Lost
  | Retired
deriving DecidableEq

/-- Modelled from the spec: an Item of the Item Registry — identity is
the unique item code (barcode), with type, status, optional current
borrower and optional due date. -/
structure Item where
  code : String
  itemType : String
  status : Status
  borrower : Option String
  dueDate : Option Int
deriving DecidableEq

/-- Modelled from the spec: a Loan (borrowing record) — borrower id,
checkout time, due time, return time (unset while open), renewal count. -/
structure Loan where
  itemCode : String
  borrowerId : String
  checkoutTime : Int
  dueTime : Int
  returnTime : Option Int
  renewalCount : Nat
deriving DecidableEq

/-- Modelled from the spec: per-item-type BorrowingPolicy — max
concurrent loans per borrower, loan period length, renewal flag, max
renewal count. -/
structure Policy where
  maxConcurrent : Nat
  loanPeriod : Int
  allowRenewal : Bool
  maxRenewals : Nat

/-- Modelled from the spec: the persistent state the Circulation Engine
operates on — the Item Registry plus the Loan records (the Borrower
Ledger is backed by the same Loan storage). -/
structure LibState where
  items : List Item
  loans : List Loan
deriving DecidableEq

/-- Modelled from the spec: the error taxonomy of the circulation
operations. -/
inductive CircError where
  | NotFound
  | ItemUnavailable
  | NoOpenLoan
  | BorrowingLimitExceeded
  | RenewalNotAllowed
  | RenewalLimitExceeded
  | BorrowerMismatch
deriving DecidableEq

/-- Modelled from the spec: the Item Registry lookup `getItem(code)`. -/
def getItem (s : LibState) (code : String) : Option Item :=
  s.items.find? (fun it => it.code == code)

/-- A loan is open for a code when its item code matches and its return
time is unset. -/
def isOpenFor (code : String) (l : Loan) : Bool :=
  l.itemCode == code && l.returnTime == none

/-- Modelled from the spec: the open loan of an item ("at most one open
loan per item at any time"). -/
def openLoan (s : LibState) (code : String) : Option Loan :=
  s.loans.find? (isOpenFor code)

/-- The item type recorded for a code in the registry. -/
def itemTypeOf (s : LibState) (code : String) : Option String :=
  (getItem s code).map Item.itemType

/-- Modelled from the spec: the Borrower Ledger query
`activeLoanCount(borrowerId, itemType)`, computed over the open Loan
records of that borrower whose item has the given type. -/
def activeLoanCount (s : LibState) (borrowerId itemType : String) : Nat :=
  (s.loans.filter (fun l =>
    l.returnTime == none && l.borrowerId == borrowerId &&
      itemTypeOf s l.itemCode == some itemType)).length

/-- Update every registry item carrying the given code. -/
def updItem (code : String) (f : Item → Item) (s : LibState) : LibState :=
  { s with items := s.items.map (fun it => if it.code == code then f it else it) }

/-- Modelled from the spec: `checkout(itemCode, borrowerId)` — fails with
`NotFound` on an unknown code, `ItemUnavailable` when the status is not
`Available`, `BorrowingLimitExceeded` when the borrower is at or over the
item type's concurrent-loan cap; on success opens a new Loan and sets the
item to CheckedOut with borrower and due date = now + loan period. -/
def checkout (pol : String → Policy) (s : LibState) (code borrowerId : String) (now : Int) :
    Except CircError LibState :=
  match getItem s code with
  | none => .error .NotFound
  | some it =>
    if it.status ≠ .Available then .error .ItemUnavailable
    else if (pol it.itemType).maxConcurrent ≤ activeLoanCount s borrowerId it.itemType then
      .error .BorrowingLimitExceeded
    else
      let due := now + (pol it.itemType).loanPeriod
      let s1 := updItem code
        (fun i => { i with status := .CheckedOut, borrower := some borrowerId,
                           dueDate := some due }) s
      .ok { s1 with loans :=
        { itemCode := code, borrowerId := borrowerId, checkoutTime := now,
          dueTime := due, returnTime := none, renewalCount := 0 } :: s1.loans }

/-- Modelled from the spec: `return(itemCode)` — fails with `NotFound` on
an unknown code, `NoOpenLoan` when the item has no open loan; on success
closes the open Loan (sets its return time), clears the item's borrower
and due date and sets the status to Available regardless of whether the
loan was Overdue. -/
def returnItem (s : LibState) (code : String) (now : Int) : Except CircError LibState :=
  match getItem s code with
  | none => .error .NotFound
  | some _ =>
    match openLoan s code with
    | none => .error .NoOpenLoan
    | some _ =>
      let s1 := updItem code
        (fun i => { i with status := .Available, borrower := none, dueDate := none }) s
      .ok { s1 with loans := s1.loans.map (fun l =>
        if isOpenFor code l then { l with returnTime := some now } else l) }

/-- Modelled from the spec: `renew(itemCode, borrowerId)` — fails with
`NotFound`, `NoOpenLoan`, `BorrowerMismatch` when the caller-supplied
borrower differs from the loan's borrower, `ItemUnavailable` when the
status blocks renewal (not CheckedOut/Overdue), `RenewalNotAllowed` when
policy disallows renewal for the type, `RenewalLimitExceeded` at the
policy's max renewal count; on success extends the due date by one loan
period measured from the renewal time, increments the renewal count and
resets the status to CheckedOut. -/
def renewItem (pol : String → Policy) (s : LibState) (code borrowerId : String) (now : Int) :
    Except CircError LibState :=
  match getItem s code with
  | none => .error .NotFound
  | some it =>
    match openLoan s code with
    | none => .error .NoOpenLoan
    | some l =>
      if l.borrowerId ≠ borrowerId then .error .BorrowerMismatch
      else if ¬ (it.status = .CheckedOut ∨ it.status = .Overdue) then .error .ItemUnavailable
      else if ¬ (pol it.itemType).allowRenewal then .error .RenewalNotAllowed
      else if (pol it.itemType).maxRenewals ≤ l.renewalCount then .error .RenewalLimitExceeded
      else
        let due := now + (pol it.itemType).loanPeriod
        let s1 := updItem code
          (fun i => { i with status := .CheckedOut, dueDate := some due }) s
        .ok { s1 with loans := s1.loans.map (fun l2 =>
          if isOpenFor code l2 then
            { l2 with dueTime := due, renewalCount := l2.renewalCount + 1 } else l2) }

/-- A checked-out item whose due date has passed. -/
def pastDue (now : Int) (it : Item) : Bool :=
  it.status == Status.CheckedOut &&
    (match it.dueDate with
     | some d => decide (d < now)
     | none => false)

/-- Modelled from the spec: the Overdue Classifier's write-through that
marks any checked-out item past its due date as `Overdue` ("a loan that
is two days late is Overdue even if no write has occurred since"). -/
def markOverdue (s : LibState) (now : Int) : LibState :=
  { s with items := s.items.map (fun it =>
      if pastDue now it then { it with status := .Overdue } else it) }

/-- The registry update a successful checkout applies to the item. -/
def checkoutUpd (b : String) (due : Int) (i : Item) : Item :=
  { i with status := .CheckedOut, borrower := some b, dueDate := some due }

/-- The registry update a successful return applies to the item. -/
def returnUpd (i : Item) : Item :=
  { i with status := .Available, borrower := none, dueDate := none }

/-- The registry update a successful renew applies to the item. -/
def renewUpd (due : Int) (i : Item) : Item :=
  { i with status := .CheckedOut, dueDate := some due }

/-- One day in epoch milliseconds. -/
def msPerDay : Int := 86400000

/-- Modelled from the spec: the derived `OverdueSnapshot` — the three
overdue buckets plus `totalOverdue`, which the classifier defines as the
sum of the buckets by construction. -/
structure OverdueSnapshot where
  overdue1Week : Nat
  overdue2Weeks : Nat
  overdueMoreThan2Weeks : Nat
  totalOverdue : Nat
deriving DecidableEq

/-- A loan with no recorded return time. -/
def loanOpen (l : Loan) : Bool := l.returnTime == none

/-- An open loan whose elapsed time `now − due` is positive and at most
seven days. -/
def inWeek1 (now : Int) (l : Loan) : Bool :=
  loanOpen l && decide (0 < now - l.dueTime) && decide (now - l.dueTime ≤ 7 * msPerDay)

/-- An open loan whose elapsed time is over seven days and at most
fourteen. -/
def inWeek2 (now : Int) (l : Loan) : Bool :=
  loanOpen l && decide (7 * msPerDay < now - l.dueTime) &&
    decide (now - l.dueTime ≤ 14 * msPerDay)

/-- An open loan whose elapsed time is over fourteen days. -/
def beyond2Weeks (now : Int) (l : Loan) : Bool :=
  loanOpen l && decide (14 * msPerDay < now - l.dueTime)

/-- Modelled from the spec: the Overdue Classifier — a pure function of
the loans and the current time that buckets every open loan by elapsed
time (`≤ 0` current, `≤ 7` days one week, `≤ 14` days two weeks, else
more) and defines `totalOverdue` as the sum of the buckets. -/
def classifyLoans (loans : List Loan) (now : Int) : OverdueSnapshot :=
  let w1 := (loans.filter (inWeek1 now)).length
  let w2 := (loans.filter (inWeek2 now)).length
  let w3 := (loans.filter (beyond2Weeks now)).length
  { overdue1Week := w1, overdue2Weeks := w2, overdueMoreThan2Weeks := w3,
    totalOverdue := w1 + w2 + w3 }

/-- Modelled from the spec: the per-item registry invariant — borrower
and due date are both set when the status is CheckedOut or Overdue, and
both unset otherwise. -/
def itemInv (it : Item) : Prop :=
  ((it.status = .CheckedOut ∨ it.status = .Overdue) →
      it.borrower.isSome ∧ it.dueDate.isSome) ∧
  (¬ (it.status = .CheckedOut ∨ it.status = .Overdue) →
      it.borrower = none ∧ it.dueDate = none)

instance (it : Item) : Decidable (itemInv it) := by
  unfold itemInv; infer_instance

/-- Modelled from the spec: registry well-formedness — item codes are
unique ("identity = unique item code") and every item satisfies the
borrower/due-date invariant. -/
def stateInv (s : LibState) : Prop :=
  s.items.Pairwise (fun a b => a.code ≠ b.code) ∧ ∀ it ∈ s.items, itemInv it

instance (s : LibState) : Decidable (stateInv s) := by
  unfold stateInv; infer_instance

/-- One atomic transition of the circulation core: a successful
checkout, return or renew, or the classifier's overdue write-through. -/
inductive Step (pol : String → Policy) : LibState → LibState → Prop where
  | checkout (s s' : LibState) (code b : String) (now : Int) :
      checkout pol s code b now = .ok s' → Step pol s s'
  | ret (s s' : LibState) (code : String) (now : Int) :
      returnItem s code now = .ok s' → Step pol s s'
  | renew (s s' : LibState) (code b : String) (now : Int) :
      renewItem pol s code b now = .ok s' → Step pol s s'
  | mark (s : LibState) (now : Int) : Step pol s (markOverdue s now)

/-- States reachable from a start state by circulation transitions. -/
inductive Reach (pol : String → Policy) : LibState → LibState → Prop where
  | refl (s : LibState) : Reach pol s s
  | tail {s t u : LibState} : Reach pol s t → Step pol t u → Reach pol s u

end Core

namespace Scanner

/-- State evolution of the widget under a sequence of scan attempts,
keeping only the component state of each attempt (the barcode and the
JS `Date.now()` queue id). -/
def scanStep (st : ScannerState) (p : String × Int) : ScannerState :=
  (processScannedBarcode st p.1 p.2).1

/-- A scanner state with a submission in flight. -/
def demoBusyScanner : ScannerState :=
  { currentMode := "checkout", processingQueue := [{ id := 1, barcode := "BK-001" }],
    recentHistory := [], successCount := 0, errorCount := 0,
    isProcessing := true, lastScanSuccess := false, lastScanError := false }

end Scanner

namespace ListView

/-- A small concrete inventory: one available book and one lost book. -/
def demoItems : List ItemRec :=
  [{ Barcode__c := "BK-001", Item_Type__c := "Book", Current_Status__c := "Available" },
   { Barcode__c := "BK-002", Item_Type__c := "Book", Current_Status__c := "Lost" }]

end ListView

namespace Core

/-- A concrete borrowing policy: cap of three concurrent loans, loan
period of fourteen days, renewal allowed, at most two renewals. -/
def demoPolicy : Policy :=
  { maxConcurrent := 3, loanPeriod := 14 * msPerDay, allowRenewal := true, maxRenewals := 2 }

/-- The same policy for every item type. -/
def demoPolicies : String → Policy := fun _ => demoPolicy

/-- A concrete available book. -/
def demoAvail : Item :=
  { code := "BK-001", itemType := "Book", status := .Available, borrower := none, dueDate := none }

/-- The same book checked out to borrower U1. -/
def demoLoanedItem : Item :=
  { code := "BK-001", itemType := "Book", status := .CheckedOut,
    borrower := some "U1", dueDate := some (14 * msPerDay) }

/-- The open loan backing `demoLoanedItem`. -/
def demoLoan : Loan :=
  { itemCode := "BK-001", borrowerId := "U1", checkoutTime := 0,
    dueTime := 14 * msPerDay, returnTime := none, renewalCount := 0 }

/-- A library with the single available book and no loans. -/
def demoS0 : LibState := { items := [demoAvail], loans := [] }

/-- A library with the single book checked out to U1. -/
def demoS1 : LibState := { items := [demoLoanedItem], loans := [demoLoan] }

/-- The library after U1 renews the demo loan twenty days in: the due
date moves to day 34 and the renewal count to one. -/
def demoRenewed : LibState :=
  { items := [{ code := "BK-001", itemType := "Book", status := .CheckedOut,
                borrower := some "U1", dueDate := some (34 * msPerDay) }],
    loans := [{ itemCode := "BK-001", borrowerId := "U1", checkoutTime := 0,
                dueTime := 34 * msPerDay, returnTime := none, renewalCount := 1 }] }

theorem find?_map_of_pred_eq {α : Type} (g : α → α) (p : α → Bool)
    (hg : ∀ a, p (g a) = p a) (l : List α) :
    (l.map g).find? p = (l.find? p).map g := by
  rw [List.find?_map g l]
  have hpg : p ∘ g = p := funext hg
  rw [hpg]

theorem getItem_updItem (code code2 : String) (f : Item → Item)
    (hf : ∀ it, (f it).code = it.code) (s : LibState) :
    getItem (updItem code f s) code2 =
      (getItem s code2).map (fun it => if it.code == code then f it else it) := by
  unfold getItem updItem
  exact find?_map_of_pred_eq _ _
    (fun a => by by_cases h : (a.code == code) <;> simp [h, hf]) _

theorem getItem_markOverdue (s : LibState) (now : Int) (code : String) :
    getItem (markOverdue s now) code =
      (getItem s code).map (fun it => if pastDue now it then { it with status := .Overdue } else it) := by
  unfold getItem markOverdue
  exact find?_map_of_pred_eq _ _
    (fun a => by by_cases h : pastDue now a <;> simp [h]) _

theorem find?_unique_code (l : List Item) (code : String) (it a : Item)
    (hp : l.Pairwise (fun x y => x.code ≠ y.code))
    (hfind : l.find? (fun x => x.code == code) = some it)
    (hmem : a ∈ l) (hcode : a.code = code) : a = it := by
  induction l with
  | nil => cases hmem
  | cons x xs ih =>
    have hp2 := List.pairwise_cons.mp hp
    rcases List.mem_cons.mp hmem with h | h
    · subst h
      rw [List.find?_cons_of_pos _ (by simp [hcode])] at hfind
      exact (Option.some.injEq _ _ ▸ hfind).symm ▸ rfl
    · by_cases hx : x.code = code
      · rw [List.find?_cons_of_pos _ (by simp [hx])] at hfind
        exact absurd (hcode.trans hx.symm).symm (hp2.1 a h)
      · rw [List.find?_cons_of_neg _ (by simp [hx])] at hfind
        exact ih hp2.2 hfind h

theorem checkout_ok_elim {pol : String → Policy} {s s' : LibState} {code b : String} {now : Int}
    (h : checkout pol s code b now = .ok s') :
    ∃ it, getItem s code = some it ∧ it.status = .Available ∧
      activeLoanCount s b it.itemType < (pol it.itemType).maxConcurrent ∧
      s' = { items := (updItem code (checkoutUpd b (now + (pol it.itemType).loanPeriod)) s).items,
             loans := { itemCode := code, borrowerId := b, checkoutTime := now,
                        dueTime := now + (pol it.itemType).loanPeriod, returnTime := none,
                        renewalCount := 0 } :: s.loans } := by
  unfold checkout at h
  cases hg : getItem s code with
  | none => rw [hg] at h; cases h
  | some it =>
    rw [hg] at h
    by_cases h1 : it.status = Status.Available
    · simp only [h1, ne_eq, not_true_eq_false, if_false, if_true, ite_false, ite_true,
        not_false_eq_true] at h
      by_cases h2 : (pol it.itemType).maxConcurrent ≤ activeLoanCount s b it.itemType
      · simp [h2] at h
      · simp only [h2, if_false, ite_false] at h
        refine ⟨it, rfl, h1, by omega, ?_⟩
        cases h
        rfl
    · simp [h1] at h

theorem returnItem_ok_elim {s s' : LibState} {code : String} {now : Int}
    (h : returnItem s code now = .ok s') :
    ∃ it l, getItem s code = some it ∧ openLoan s code = some l ∧
      s' = { items := (updItem code returnUpd s).items,
             loans := s.loans.map (fun l2 =>
               if isOpenFor code l2 then { l2 with returnTime := some now } else l2) } := by
  unfold returnItem at h
  cases hg : getItem s code with
  | none => rw [hg] at h; cases h
  | some it =>
    rw [hg] at h
    cases ho : openLoan s code with
    | none => rw [ho] at h; cases h
    | some l =>
      rw [ho] at h
      refine ⟨it, l, rfl, rfl, ?_⟩
      cases h
      rfl

theorem renewItem_ok_elim {pol : String → Policy} {s s' : LibState} {code b : String} {now : Int}
    (h : renewItem pol s code b now = .ok s') :
    ∃ it l, getItem s code = some it ∧ openLoan s code = some l ∧
      l.borrowerId = b ∧ (it.status = .CheckedOut ∨ it.status = .Overdue) ∧
      (pol it.itemType).allowRenewal = true ∧
      l.renewalCount < (pol it.itemType).maxRenewals ∧
      s' = { items := (updItem code (renewUpd (now + (pol it.itemType).loanPeriod)) s).items,
             loans := s.loans.map (fun l2 =>
               if isOpenFor code l2 then
                 { l2 with dueTime := now + (pol it.itemType).loanPeriod,
                           renewalCount := l2.renewalCount + 1 } else l2) } := by
  unfold renewItem at h
  cases hg : getItem s code with
  | none => rw [hg] at h; cases h
  | some it =>
    rw [hg] at h
    cases ho : openLoan s code with
    | none => rw [ho] at h; cases h
    | some l =>
      rw [ho] at h
      by_cases hb : l.borrowerId = b
      · by_cases hst : it.status = Status.CheckedOut ∨ it.status = Status.Overdue
        · by_cases hren : (pol it.itemType).allowRenewal = true
          · by_cases hmax : (pol it.itemType).maxRenewals ≤ l.renewalCount
            · simp [hb, hst, hren, hmax] at h
            · simp only [hb, hst, hren, hmax, ne_eq, not_true_eq_false, not_false_eq_true,
                if_false, if_true, ite_false, ite_true] at h
              refine ⟨it, l, rfl, rfl, hb, hst, hren, by omega, ?_⟩
              cases h
              rfl
          · simp [hb, hst, hren] at h
        · simp [hb, hst] at h
      · simp [hb] at h

theorem pairwise_codes_map (g : Item → Item) (hg : ∀ i, (g i).code = i.code)
    (l : List Item) (hp : l.Pairwise (fun a b => a.code ≠ b.code)) :
    (l.map g).Pairwise (fun a b => a.code ≠ b.code) := by
  rw [List.pairwise_map]
  exact hp.imp (fun hne => by rw [hg, hg]; exact hne)

theorem updItem_code_pres (code : String) (f : Item → Item)
    (hf : ∀ i, (f i).code = i.code) (i : Item) :
    (if i.code == code then f i else i).code = i.code := by
  by_cases h : (i.code == code) <;> simp [h, hf]

theorem itemInv_checkoutUpd (b : String) (due : Int) (i : Item) :
    itemInv (checkoutUpd b due i) := by
  simp [itemInv, checkoutUpd]

theorem itemInv_returnUpd (i : Item) : itemInv (returnUpd i) := by
  simp [itemInv, returnUpd]

theorem itemInv_renewUpd (due : Int) (i : Item) (hb : i.borrower.isSome) :
    itemInv (renewUpd due i) := by
  simp [itemInv, renewUpd, hb]

theorem stateInv_checkout {pol : String → Policy} {s s' : LibState} {code b : String} {now : Int}
    (hinv : stateInv s) (h : checkout pol s code b now = .ok s') : stateInv s' := by
  obtain ⟨it, hg, h1, h2, rfl⟩ := checkout_ok_elim h
  refine ⟨?_, ?_⟩
  · exact pairwise_codes_map _
      (updItem_code_pres code _ (fun i => by simp [checkoutUpd])) _ hinv.1
  · intro a ha
    obtain ⟨x, hx, rfl⟩ := List.mem_map.mp ha
    by_cases hc : (x.code == code)
    · simp only [hc, if_true, ite_true]
      exact itemInv_checkoutUpd _ _ _
    · simp only [hc, if_false, ite_false, Bool.false_eq_true]
      exact hinv.2 x hx

theorem stateInv_return {s s' : LibState} {code : String} {now : Int}
    (hinv : stateInv s) (h : returnItem s code now = .ok s') : stateInv s' := by
  obtain ⟨it, l, hg, ho, rfl⟩ := returnItem_ok_elim h
  refine ⟨?_, ?_⟩
  · exact pairwise_codes_map _
      (updItem_code_pres code _ (fun i => by simp [returnUpd])) _ hinv.1
  · intro a ha
    obtain ⟨x, hx, rfl⟩ := List.mem_map.mp ha
    by_cases hc : (x.code == code)
    · simp only [hc, if_true, ite_true]
      exact itemInv_returnUpd _
    · simp only [hc, if_false, ite_false, Bool.false_eq_true]
      exact hinv.2 x hx

theorem stateInv_renew {pol : String → Policy} {s s' : LibState} {code b : String} {now : Int}
    (hinv : stateInv s) (h : renewItem pol s code b now = .ok s') : stateInv s' := by
  obtain ⟨it, l, hg, ho, hb, hst, hren, hmax, rfl⟩ := renewItem_ok_elim h
  refine ⟨?_, ?_⟩
  · exact pairwise_codes_map _
      (updItem_code_pres code _ (fun i => by simp [renewUpd])) _ hinv.1
  · intro a ha
    obtain ⟨x, hx, rfl⟩ := List.mem_map.mp ha
    by_cases hc : (x.code == code)
    · simp only [hc, if_true, ite_true]
      have hx_it : x = it :=
        find?_unique_code s.items code it x hinv.1 hg hx (by simpa using hc)
      subst hx_it
      exact itemInv_renewUpd _ _ ((hinv.2 x hx).1 hst).1
    · simp only [hc, if_false, ite_false, Bool.false_eq_true]
      exact hinv.2 x hx

theorem stateInv_mark {s : LibState} {now : Int}
    (hinv : stateInv s) : stateInv (markOverdue s now) := by
  refine ⟨?_, ?_⟩
  · exact pairwise_codes_map _
      (fun i => by by_cases h : pastDue now i <;> simp [h]) _ hinv.1
  · intro a ha
    obtain ⟨x, hx, rfl⟩ := List.mem_map.mp ha
    by_cases hp : pastDue now x
    · simp only [hp, if_true, ite_true]
      have hco : x.status = Status.CheckedOut := by
        unfold pastDue at hp
        have := (Bool.and_eq_true _ _).mp hp
        simpa using this.1
      have := (hinv.2 x hx).1 (Or.inl hco)
      exact ⟨fun _ => this, fun hn => absurd (Or.inr rfl) hn⟩
    · simp only [hp, if_false, ite_false, Bool.false_eq_true]
      exact hinv.2 x hx

theorem stateInv_step {pol : String → Policy} {s s' : LibState}
    (hinv : stateInv s) (h : Step pol s s') : stateInv s' := by
  cases h with
  | checkout _ code b now hop => exact stateInv_checkout hinv hop
  | ret _ code now hop => exact stateInv_return hinv hop
  | renew _ code b now hop => exact stateInv_renew hinv hop
  | mark now => exact stateInv_mark hinv

theorem stateInv_reach {pol : String → Policy} {s s' : LibState}
    (hr : Reach pol s s') (hinv : stateInv s) : stateInv s' := by
  induction hr with
  | refl => exact hinv
  | tail _ hstep ih => exact stateInv_step ih hstep

theorem getItem_updItem_self (code : String) (f : Item → Item)
    (hf : ∀ i, (f i).code = i.code) (s : LibState) (it : Item)
    (hg : getItem s code = some it) :
    getItem (updItem code f s) code = some (f it) := by
  rw [getItem_updItem code code f hf s, hg]
  have hg2 : s.items.find? (fun x => x.code == code) = some it := hg
  have hcode := List.find?_some hg2
  simp only [Option.map_some']
  rw [if_pos hcode]

theorem checkout_ok_of {pol : String → Policy} {s : LibState} {code b : String} {now : Int}
    {it : Item} (hg : getItem s code = some it) (h1 : it.status = .Available)
    (h2 : activeLoanCount s b it.itemType < (pol it.itemType).maxConcurrent) :
    ∃ s', checkout pol s code b now = .ok s' := by
  unfold checkout
  rw [hg]
  simp [h1, Nat.not_le.mpr h2]

theorem returnItem_ok_of {s : LibState} {code : String} {now : Int}
    {it : Item} {l : Loan} (hg : getItem s code = some it) (ho : openLoan s code = some l) :
    ∃ s', returnItem s code now = .ok s' := by
  unfold returnItem
  rw [hg, ho]
  exact ⟨_, rfl⟩

theorem openLoan_after_return (loans : List Loan) (code : String) (now : Int) :
    (loans.map (fun l2 =>
      if isOpenFor code l2 then { l2 with returnTime := some now } else l2)).find?
      (isOpenFor code) = none := by
  rw [List.find?_eq_none]
  intro x hx
  obtain ⟨l2, hl2, rfl⟩ := List.mem_map.mp hx
  by_cases h : isOpenFor code l2 = true
  · rw [if_pos h]
    simp [isOpenFor]
  · rw [if_neg h]
    exact h

theorem openLoan_after_renew (loans : List Loan) (code : String) (due : Int) :
    (loans.map (fun l2 =>
      if isOpenFor code l2 then
        { l2 with dueTime := due, renewalCount := l2.renewalCount + 1 } else l2)).find?
      (isOpenFor code) =
    (loans.find? (isOpenFor code)).map (fun l2 =>
      if isOpenFor code l2 then
        { l2 with dueTime := due, renewalCount := l2.renewalCount + 1 } else l2) := by
  apply find?_map_of_pred_eq
  intro a
  by_cases h : isOpenFor code a = true
  · rw [if_pos h]
    simp [isOpenFor]
  · rw [if_neg h]

theorem getItem_mk (items : List Item) (loans : List Loan) (code : String) :
    getItem { items := items, loans := loans } code =
      items.find? (fun it => it.code == code) := rfl

theorem openLoan_mk (items : List Item) (loans : List Loan) (code : String) :
    openLoan { items := items, loans := loans } code = loans.find? (isOpenFor code) := rfl

theorem checkout_ok_explicit {pol : String → Policy} {s : LibState} {code b : String}
    {now : Int} {it : Item} (hg : getItem s code = some it) (hav : it.status = .Available)
    (hcap : activeLoanCount s b it.itemType < (pol it.itemType).maxConcurrent) :
    checkout pol s code b now = .ok
      { items := (updItem code (checkoutUpd b (now + (pol it.itemType).loanPeriod)) s).items,
        loans := { itemCode := code, borrowerId := b, checkoutTime := now,
                   dueTime := now + (pol it.itemType).loanPeriod, returnTime := none,
                   renewalCount := 0 } :: s.loans } := by
  have h2 := Nat.not_le.mpr hcap
  unfold checkout
  rw [hg]
  simp [hav, h2]
  exact ⟨rfl, rfl⟩

theorem checkout_unavailable {pol : String → Policy} {s : LibState} {code b : String}
    {now : Int} {it : Item} (hg : getItem s code = some it)
    (hne : it.status ≠ .Available) :
    checkout pol s code b now = .error .ItemUnavailable := by
  unfold checkout
  rw [hg]
  simp [hne]

theorem return_clears {s : LibState} {code : String} {now : Int} {it : Item} {l : Loan}
    (hg : getItem s code = some it) (ho : openLoan s code = some l) :
    ∃ s3, returnItem s code now = .ok s3 ∧
      ∃ it3, getItem s3 code = some it3 ∧ it3.status = .Available ∧
        it3.borrower = none ∧ it3.dueDate = none := by
  unfold returnItem
  rw [hg, ho]
  refine ⟨_, rfl, returnUpd it, ?_, rfl, rfl, rfl⟩
  exact getItem_updItem_self code returnUpd (fun i => rfl) s it hg

theorem checkout_post {pol : String → Policy} {s s1 : LibState} {code b : String} {now : Int}
    (h : checkout pol s code b now = .ok s1) :
    (∃ it, getItem s1 code = some it ∧ it.status = .CheckedOut) ∧
    (∃ l, openLoan s1 code = some l) := by
  obtain ⟨it, hg, hav, hcap, rfl⟩ := checkout_ok_elim h
  constructor
  · exact ⟨_, getItem_updItem_self code
      (checkoutUpd b (now + (pol it.itemType).loanPeriod)) (fun i => rfl) s it hg, rfl⟩
  · exact ⟨_, List.find?_cons_of_pos _ (by simp [isOpenFor])⟩

theorem markOverdue_post {s : LibState} (t : Int) {code : String} {it : Item}
    (hg : getItem s code = some it) :
    ∃ it2, getItem (markOverdue s t) code = some it2 := by
  rw [getItem_markOverdue, hg]
  exact ⟨_, rfl⟩

theorem openLoan_markOverdue (s : LibState) (t : Int) (code : String) :
    openLoan (markOverdue s t) code = openLoan s code := rfl

end Core

namespace ListView

theorem statistics_foldl (items : List ItemRec) (st : Stats) :
    items.foldl (fun a it => statsAccumulate a it.Current_Status__c) st =
    { total := st.total,
      available := st.available +
        items.countP (fun it => it.Current_Status__c == "Available"),
      checkedOut := st.checkedOut +
        items.countP (fun it => it.Current_Status__c == "Checked Out"),
      overdue := st.overdue +
        items.countP (fun it => it.Current_Status__c == "Overdue"),
      maintenance := st.maintenance +
        items.countP (fun it => it.Current_Status__c == "Maintenance") } := by
  induction items generalizing st with
  | nil => simp
  | cons x xs ih =>
    rw [List.foldl_cons, ih]
    by_cases h1 : x.Current_Status__c = "Available"
    · simp [statsAccumulate, h1, List.countP_cons]; omega
    · by_cases h2 : x.Current_Status__c = "Checked Out"
      · simp [statsAccumulate, h1, h2, List.countP_cons]; omega
      · by_cases h3 : x.Current_Status__c = "Overdue"
        · simp [statsAccumulate, h1, h2, h3, List.countP_cons]; omega
        · by_cases h4 : x.Current_Status__c = "Maintenance"
          · simp [statsAccumulate, h1, h2, h3, h4, List.countP_cons]; omega
          · simp [statsAccumulate, h1, h2, h3, h4, List.countP_cons]

theorem statistics_eq_counts (items : List ItemRec) :
    statistics items =
    { total := items.length,
      available := items.countP (fun it => it.Current_Status__c == "Available"),
      checkedOut := items.countP (fun it => it.Current_Status__c == "Checked Out"),
      overdue := items.countP (fun it => it.Current_Status__c == "Overdue"),
      maintenance := items.countP (fun it => it.Current_Status__c == "Maintenance") } := by
  unfold statistics
  rw [statistics_foldl]
  simp

theorem statusContrib_le_one (s : String) :
    (if (s == "Available") = true then 1 else 0) +
    (if (s == "Checked Out") = true then 1 else 0) +
    (if (s == "Overdue") = true then 1 else 0) +
    (if (s == "Maintenance") = true then 1 else 0) ≤ 1 := by
  by_cases hA : s = "Available"
  · subst hA; decide
  · by_cases hC : s = "Checked Out"
    · subst hC; decide
    · by_cases hO : s = "Overdue"
      · subst hO; decide
      · by_cases hM : s = "Maintenance"
        · subst hM; decide
        · simp [beq_iff_eq, hA, hC, hO, hM]

theorem statusContrib_zero_of_lost_retired (s : String)
    (h : s = "Lost" ∨ s = "Retired") :
    (if (s == "Available") = true then 1 else 0) +
    (if (s == "Checked Out") = true then 1 else 0) +
    (if (s == "Overdue") = true then 1 else 0) +
    (if (s == "Maintenance") = true then 1 else 0) = 0 := by
  rcases h with h | h <;> subst h <;> decide

theorem four_counts_le (items : List ItemRec) :
    items.countP (fun it => it.Current_Status__c == "Available") +
    items.countP (fun it => it.Current_Status__c == "Checked Out") +
    items.countP (fun it => it.Current_Status__c == "Overdue") +
    items.countP (fun it => it.Current_Status__c == "Maintenance") ≤ items.length := by
  induction items with
  | nil => simp
  | cons x xs ih =>
    simp only [List.countP_cons, List.length_cons]
    have hx := statusContrib_le_one x.Current_Status__c
    omega

theorem four_counts_lt (items : List ItemRec)
    (h : ∃ it ∈ items, it.Current_Status__c = "Lost" ∨ it.Current_Status__c = "Retired") :
    items.countP (fun it => it.Current_Status__c == "Available") +
    items.countP (fun it => it.Current_Status__c == "Checked Out") +
    items.countP (fun it => it.Current_Status__c == "Overdue") +
    items.countP (fun it => it.Current_Status__c == "Maintenance") < items.length := by
  induction items with
  | nil => obtain ⟨it, hmem, _⟩ := h; cases hmem
  | cons x xs ih =>
    simp only [List.countP_cons, List.length_cons]
    obtain ⟨it, hmem, hlr⟩ := h
    rcases List.mem_cons.mp hmem with heq | hmem2
    · subst heq
      have hz := statusContrib_zero_of_lost_retired it.Current_Status__c hlr
      have hle := four_counts_le xs
      omega
    · have hlt := ih ⟨it, hmem2, hlr⟩
      have hx := statusContrib_le_one x.Current_Status__c
      omega

end ListView

/-- C1: for every `OverdueSnapshot` produced from any input set of loans,
`totalOverdue` equals `overdue1Week + overdue2Weeks + overdueMoreThan2Weeks`.
The classifier defines the total as that sum by construction, and the
dashboard's `reconcileOverdueData` overwrites `totalOverdue` with the sum
of the buckets on every input received from the service layer, so no
service-layer input can make the published total diverge from its
components. -/
theorem totalOverdue_eq_sum :
    (∀ (loans : List Core.Loan) (now : Int),
        (Core.classifyLoans loans now).totalOverdue =
          (Core.classifyLoans loans now).overdue1Week +
          (Core.classifyLoans loans now).overdue2Weeks +
          (Core.classifyLoans loans now).overdueMoreThan2Weeks) ∧
    (∀ (i : Dashboard.ItemStats) (o : Dashboard.OverdueStats),
        ((Dashboard.reconcileOverdueData i o).2).totalOverdue =
          some (Dashboard.orZero ((Dashboard.reconcileOverdueData i o).2).overdue1Week +
                Dashboard.orZero ((Dashboard.reconcileOverdueData i o).2).overdue2Weeks +
                Dashboard.orZero ((Dashboard.reconcileOverdueData i o).2).overdueMoreThan2Weeks)) := by
  constructor
  · intro loans now
    rfl
  · intro i o
    rfl

/-- C9: while a scan's server call is pending (`isProcessing` is true),
any further invocation of `processScannedBarcode` returns immediately with
the component state unchanged — no server call issued, no queue entry, no
history entry, no counter change — and consequently a whole sequence of
scans arriving while a submission is in flight leaves the state fixed. -/
theorem scanner_guard :
    (∀ (s : Scanner.ScannerState) (b : String) (i : Int),
        s.isProcessing = true →
        Scanner.processScannedBarcode s b i = (s, none)) ∧
    (∀ (s : Scanner.ScannerState) (scans : List (String × Int)),
        s.isProcessing = true →
        scans.foldl Scanner.scanStep s = s) := by
  constructor
  · intro s b i h
    unfold Scanner.processScannedBarcode
    rw [if_pos h]
  · intro s scans h
    induction scans with
    | nil => rfl
    | cons x xs ih =>
      rw [List.foldl_cons]
      have hstep : Scanner.scanStep s x = s := by
        unfold Scanner.scanStep Scanner.processScannedBarcode
        rw [if_pos h]
      rw [hstep]
      exact ih

/-- Witness for C9 at a concrete busy scanner state. -/
theorem scanner_guard_witness :
    Scanner.demoBusyScanner.isProcessing = true ∧
    Scanner.processScannedBarcode Scanner.demoBusyScanner "BK-002" 7 =
      (Scanner.demoBusyScanner, none) :=
  ⟨rfl, scanner_guard.1 Scanner.demoBusyScanner "BK-002" 7 rfl⟩

/-- C10: for every item list, the list view's `statistics` getter returns
`total` = number of items, and the four counters count exactly the items
whose status string matches; the counters sum to at most `total`, strictly
less whenever a Lost or Retired item is present (such items count in
`total` but in none of the four counters). -/
theorem statistics_correct :
    ∀ items : List ListView.ItemRec,
      (ListView.statistics items).total = items.length ∧
      (ListView.statistics items).available =
        items.countP (fun it => it.Current_Status__c == "Available") ∧
      (ListView.statistics items).checkedOut =
        items.countP (fun it => it.Current_Status__c == "Checked Out") ∧
      (ListView.statistics items).overdue =
        items.countP (fun it => it.Current_Status__c == "Overdue") ∧
      (ListView.statistics items).maintenance =
        items.countP (fun it => it.Current_Status__c == "Maintenance") ∧
      ((ListView.statistics items).available + (ListView.statistics items).checkedOut +
        (ListView.statistics items).overdue + (ListView.statistics items).maintenance ≤
        (ListView.statistics items).total) ∧
      ((∃ it ∈ items, it.Current_Status__c = "Lost" ∨ it.Current_Status__c = "Retired") →
        (ListView.statistics items).available + (ListView.statistics items).checkedOut +
          (ListView.statistics items).overdue + (ListView.statistics items).maintenance <
          (ListView.statistics items).total) := by
  intro items
  rw [ListView.statistics_eq_counts]
  refine ⟨rfl, rfl, rfl, rfl, rfl, ?_, ?_⟩
  · exact ListView.four_counts_le items
  · intro h
    exact ListView.four_counts_lt items h

/-- Witness for C10: a list holding one available and one lost item has a
strict gap between the counter sum and the total. -/
theorem statistics_correct_witness :
    (ListView.statistics ListView.demoItems).available +
      (ListView.statistics ListView.demoItems).checkedOut +
      (ListView.statistics ListView.demoItems).overdue +
      (ListView.statistics ListView.demoItems).maintenance <
      (ListView.statistics ListView.demoItems).total :=
  (statistics_correct ListView.demoItems).2.2.2.2.2.2
    ⟨{ Barcode__c := "BK-002", Item_Type__c := "Book", Current_Status__c := "Lost" },
      by decide, Or.inl rfl⟩

/-- C2: the Overdue Classifier is a pure function of the open loans and
the current time; for an open loan with elapsed = now − due time: elapsed
≤ 0 leaves every bucket empty (the loan is current), 0 < elapsed ≤ 7 days
counts it in `overdue1Week`, 7 < elapsed ≤ 14 days in `overdue2Weeks`,
and over 14 days in `overdueMoreThan2Weeks`; in particular a single loan
due 10 days in the past yields `overdue2Weeks = 1` and `totalOverdue = 1`. -/
theorem classifier_buckets :
    (∀ (l : Core.Loan) (now : Int), l.returnTime = none →
        ((now - l.dueTime ≤ 0 →
            Core.classifyLoans [l] now = ⟨0, 0, 0, 0⟩) ∧
         (0 < now - l.dueTime → now - l.dueTime ≤ 7 * Core.msPerDay →
            Core.classifyLoans [l] now = ⟨1, 0, 0, 1⟩) ∧
         (7 * Core.msPerDay < now - l.dueTime → now - l.dueTime ≤ 14 * Core.msPerDay →
            Core.classifyLoans [l] now = ⟨0, 1, 0, 1⟩) ∧
         (14 * Core.msPerDay < now - l.dueTime →
            Core.classifyLoans [l] now = ⟨0, 0, 1, 1⟩))) ∧
    (∀ now : Int,
        Core.classifyLoans
          [{ itemCode := "BK-001", borrowerId := "U1", checkoutTime := 0,
             dueTime := now - 10 * Core.msPerDay, returnTime := none,
             renewalCount := 0 }] now = ⟨0, 1, 0, 1⟩) := by
  have key : ∀ (l : Core.Loan) (now : Int), l.returnTime = none →
      ((now - l.dueTime ≤ 0 →
          Core.classifyLoans [l] now = ⟨0, 0, 0, 0⟩) ∧
       (0 < now - l.dueTime → now - l.dueTime ≤ 7 * Core.msPerDay →
          Core.classifyLoans [l] now = ⟨1, 0, 0, 1⟩) ∧
       (7 * Core.msPerDay < now - l.dueTime → now - l.dueTime ≤ 14 * Core.msPerDay →
          Core.classifyLoans [l] now = ⟨0, 1, 0, 1⟩) ∧
       (14 * Core.msPerDay < now - l.dueTime →
          Core.classifyLoans [l] now = ⟨0, 0, 1, 1⟩)) := by
    intro l now hopen
    simp only [Core.msPerDay]
    refine ⟨?_, ?_, ?_, ?_⟩
    · intro h
      have e1 : Core.inWeek1 now l = false := by
        simp [Core.inWeek1, Core.loanOpen, hopen, Core.msPerDay]
        omega
      have e2 : Core.inWeek2 now l = false := by
        simp [Core.inWeek2, Core.loanOpen, hopen, Core.msPerDay]
        omega
      have e3 : Core.beyond2Weeks now l = false := by
        simp [Core.beyond2Weeks, Core.loanOpen, hopen, Core.msPerDay]
        omega
      simp [Core.classifyLoans, List.filter_cons, List.filter_nil, e1, e2, e3]
    · intro h h2
      have e1 : Core.inWeek1 now l = true := by
        simp [Core.inWeek1, Core.loanOpen, hopen, Core.msPerDay]
        omega
      have e2 : Core.inWeek2 now l = false := by
        simp [Core.inWeek2, Core.loanOpen, hopen, Core.msPerDay]
        omega
      have e3 : Core.beyond2Weeks now l = false := by
        simp [Core.beyond2Weeks, Core.loanOpen, hopen, Core.msPerDay]
        omega
      simp [Core.classifyLoans, List.filter_cons, List.filter_nil, e1, e2, e3]
    · intro h h2
      have e1 : Core.inWeek1 now l = false := by
        simp [Core.inWeek1, Core.loanOpen, hopen, Core.msPerDay]
        omega
      have e2 : Core.inWeek2 now l = true := by
        simp [Core.inWeek2, Core.loanOpen, hopen, Core.msPerDay]
        omega
      have e3 : Core.beyond2Weeks now l = false := by
        simp [Core.beyond2Weeks, Core.loanOpen, hopen, Core.msPerDay]
        omega
      simp [Core.classifyLoans, List.filter_cons, List.filter_nil, e1, e2, e3]
    · intro h
      have e1 : Core.inWeek1 now l = false := by
        simp [Core.inWeek1, Core.loanOpen, hopen, Core.msPerDay]
        omega
      have e2 : Core.inWeek2 now l = false := by
        simp [Core.inWeek2, Core.loanOpen, hopen, Core.msPerDay]
        omega
      have e3 : Core.beyond2Weeks now l = true := by
        simp [Core.beyond2Weeks, Core.loanOpen, hopen, Core.msPerDay]
        omega
      simp [Core.classifyLoans, List.filter_cons, List.filter_nil, e1, e2, e3]
  refine ⟨key, ?_⟩
  intro now
  exact (key _ now rfl).2.2.1
    (by simp only [Core.msPerDay]; omega)
    (by simp only [Core.msPerDay]; omega)

/-- Witness for C2: a loan three days past due at time 0 lands in the
one-week bucket with total 1. -/
theorem classifier_buckets_witness :
    Core.classifyLoans
      [{ itemCode := "BK-001", borrowerId := "U1", checkoutTime := 0,
         dueTime := -(3 * Core.msPerDay), returnTime := none, renewalCount := 0 }] 0 =
      ⟨1, 0, 0, 1⟩ :=
  (classifier_buckets.1 _ 0 rfl).2.1 (by decide) (by decide)

/-- C3: in every state reachable by the circulation operations (checkout,
return, renew, plus the overdue write-through) from a well-formed
registry, an item's status is CheckedOut or Overdue exactly when both its
current borrower and its due date are set, and the two fields are always
both set or both unset. -/
theorem item_fields_iff_status (pol : String → Core.Policy) (s0 s : Core.LibState)
    (hr : Core.Reach pol s0 s) (hinv : Core.stateInv s0) :
    ∀ it ∈ s.items,
      ((it.status = Core.Status.CheckedOut ∨ it.status = Core.Status.Overdue) ↔
        (it.borrower.isSome ∧ it.dueDate.isSome)) ∧
      it.borrower.isSome = it.dueDate.isSome := by
  have h := Core.stateInv_reach hr hinv
  intro it hit
  have hi := h.2 it hit
  constructor
  · constructor
    · exact hi.1
    · intro hb
      by_contra hn
      have h2 := hi.2 hn
      rw [h2.1] at hb
      simp at hb
  · by_cases hst : it.status = Core.Status.CheckedOut ∨ it.status = Core.Status.Overdue
    · have h2 := hi.1 hst
      rw [h2.1, h2.2]
    · have h2 := hi.2 hst
      rw [h2.1, h2.2]
      rfl

/-- Witness for C3: the invariant conclusion at a concrete checked-out
item in a concrete reachable state. -/
theorem item_fields_iff_status_witness :
    ((Core.demoLoanedItem.status = Core.Status.CheckedOut ∨
        Core.demoLoanedItem.status = Core.Status.Overdue) ↔
      (Core.demoLoanedItem.borrower.isSome ∧ Core.demoLoanedItem.dueDate.isSome)) ∧
    Core.demoLoanedItem.borrower.isSome = Core.demoLoanedItem.dueDate.isSome :=
  item_fields_iff_status Core.demoPolicies Core.demoS1 Core.demoS1
    (Core.Reach.refl _) (by decide) Core.demoLoanedItem (by decide)

/-- C4: checking out an available item and returning it later — with any
amount of time elapsed, including enough for the overdue write-through to
have marked the loan Overdue in between — always succeeds and leaves the
item Available with borrower and due date cleared. -/
theorem checkout_return_roundtrip (pol : String → Core.Policy)
    (s s1 s2 : Core.LibState) (code b : String) (now t now2 : Int)
    (h1 : Core.checkout pol s code b now = .ok s1)
    (h2 : s2 = s1 ∨ s2 = Core.markOverdue s1 t) :
    ∃ s3, Core.returnItem s2 code now2 = .ok s3 ∧
      ∃ it3, Core.getItem s3 code = some it3 ∧ it3.status = Core.Status.Available ∧
        it3.borrower = none ∧ it3.dueDate = none := by
  obtain ⟨⟨it1, hg1, _⟩, ⟨l1, ho1⟩⟩ := Core.checkout_post h1
  rcases h2 with rfl | rfl
  · exact Core.return_clears hg1 ho1
  · obtain ⟨it2, hg2⟩ := Core.markOverdue_post t hg1
    have ho2 : Core.openLoan (Core.markOverdue s1 t) code = some l1 := by
      rw [Core.openLoan_markOverdue]
      exact ho1
    exact Core.return_clears hg2 ho2

/-- Witness for C4: concrete checkout at time 0 followed by a return 20
days later, after the overdue write-through has run. -/
theorem checkout_return_roundtrip_witness :
    Core.checkout Core.demoPolicies Core.demoS0 "BK-001" "U1" 0 = .ok Core.demoS1 ∧
    ∃ s3, Core.returnItem (Core.markOverdue Core.demoS1 (20 * Core.msPerDay)) "BK-001"
        (20 * Core.msPerDay) = .ok s3 ∧
      ∃ it3, Core.getItem s3 "BK-001" = some it3 ∧ it3.status = Core.Status.Available ∧
        it3.borrower = none ∧ it3.dueDate = none :=
  ⟨by rfl,
    checkout_return_roundtrip Core.demoPolicies Core.demoS0 Core.demoS1
      (Core.markOverdue Core.demoS1 (20 * Core.msPerDay)) "BK-001" "U1" 0
      (20 * Core.msPerDay) (20 * Core.msPerDay) (by rfl) (Or.inr rfl)⟩

/-- C5: a successful renew sets the new due date to the renewal time plus
one loan period (measured from the renewal time), so the due date never
decreases provided the old due date was itself at most one loan period
ahead of the renewal time; the open loan's renewal count is incremented
by one and the item's status is (re)set to CheckedOut. -/
theorem renew_due_monotone (pol : String → Core.Policy) (s s2 : Core.LibState)
    (code b : String) (now : Int) (it : Core.Item) (d : Int)
    (h : Core.renewItem pol s code b now = .ok s2)
    (hg : Core.getItem s code = some it) (hd : it.dueDate = some d)
    (hle : d ≤ now + (pol it.itemType).loanPeriod) :
    ∃ it2, Core.getItem s2 code = some it2 ∧
      it2.dueDate = some (now + (pol it.itemType).loanPeriod) ∧
      (∀ d2, it2.dueDate = some d2 → d ≤ d2) ∧
      it2.status = Core.Status.CheckedOut ∧
      ∃ l l2, Core.openLoan s code = some l ∧ Core.openLoan s2 code = some l2 ∧
        l2.renewalCount = l.renewalCount + 1 := by
  obtain ⟨it0, l, hg0, ho, hb, hst, hren, hmax, rfl⟩ := Core.renewItem_ok_elim h
  have hit : it0 = it := by
    rw [hg0] at hg
    exact Option.some.inj hg
  subst hit
  have hopen : Core.isOpenFor code l = true := by
    have ho2 : s.loans.find? (Core.isOpenFor code) = some l := ho
    exact List.find?_some ho2
  refine ⟨_, Core.getItem_updItem_self code
      (Core.renewUpd (now + (pol it0.itemType).loanPeriod)) (fun i => rfl) s it0 hg,
    rfl, ?_, rfl, l,
    { l with dueTime := now + (pol it0.itemType).loanPeriod,
             renewalCount := l.renewalCount + 1 }, ho, ?_, rfl⟩
  · intro d2 hd2
    have : now + (pol it0.itemType).loanPeriod = d2 := Option.some.inj hd2
    omega
  · have ho3 : List.find? (Core.isOpenFor code) s.loans = some l := ho
    rw [Core.openLoan_mk, Core.openLoan_after_renew, ho3]
    simp only [Option.map_some']
    rw [if_pos hopen]

/-- Witness for C5: renewing the demo loan twenty days in moves the due
date from day 14 to day 34 and increments the renewal count. -/
theorem renew_due_monotone_witness :
    Core.demoLoanedItem.dueDate = some (14 * Core.msPerDay) ∧
    ∃ it2, Core.getItem Core.demoRenewed "BK-001" = some it2 ∧
      it2.dueDate = some (20 * Core.msPerDay +
        (Core.demoPolicies Core.demoLoanedItem.itemType).loanPeriod) ∧
      (∀ d2, it2.dueDate = some d2 → 14 * Core.msPerDay ≤ d2) ∧
      it2.status = Core.Status.CheckedOut ∧
      ∃ l l2, Core.openLoan Core.demoS1 "BK-001" = some l ∧
        Core.openLoan Core.demoRenewed "BK-001" = some l2 ∧
        l2.renewalCount = l.renewalCount + 1 :=
  ⟨rfl,
    renew_due_monotone Core.demoPolicies Core.demoS1 Core.demoRenewed "BK-001" "U1"
      (20 * Core.msPerDay) Core.demoLoanedItem (14 * Core.msPerDay)
      (by rfl) (by rfl) rfl (by decide)⟩

/-- C6: a return on a known item code with no open loan fails with
`NoOpenLoan` (an error result carries no state change in the model), and
after a successful return a retried return on the same code fails cleanly
with `NoOpenLoan`. -/
theorem return_noOpenLoan_safe :
    (∀ (s : Core.LibState) (code : String) (now : Int) (it : Core.Item),
        Core.getItem s code = some it → Core.openLoan s code = none →
        Core.returnItem s code now = .error Core.CircError.NoOpenLoan) ∧
    (∀ (s s2 : Core.LibState) (code : String) (now now2 : Int),
        Core.returnItem s code now = .ok s2 →
        Core.returnItem s2 code now2 = .error Core.CircError.NoOpenLoan) := by
  have p1 : ∀ (s : Core.LibState) (code : String) (now : Int) (it : Core.Item),
      Core.getItem s code = some it → Core.openLoan s code = none →
      Core.returnItem s code now = .error Core.CircError.NoOpenLoan := by
    intro s code now it hg ho
    unfold Core.returnItem
    rw [hg, ho]
  refine ⟨p1, ?_⟩
  intro s s2 code now now2 h
  obtain ⟨it, l, hg, ho, rfl⟩ := Core.returnItem_ok_elim h
  refine p1 _ code now2 (Core.returnUpd it) ?_ ?_
  · exact Core.getItem_updItem_self code Core.returnUpd (fun i => rfl) s it hg
  · exact Core.openLoan_after_return s.loans code now

/-- Witness for C6: returning the available, un-loaned demo book fails
with `NoOpenLoan`. -/
theorem return_noOpenLoan_safe_witness :
    Core.getItem Core.demoS0 "BK-001" = some Core.demoAvail ∧
    Core.openLoan Core.demoS0 "BK-001" = none ∧
    Core.returnItem Core.demoS0 "BK-001" (5 * Core.msPerDay) =
      .error Core.CircError.NoOpenLoan :=
  ⟨by decide, by decide,
    return_noOpenLoan_safe.1 Core.demoS0 "BK-001" (5 * Core.msPerDay) Core.demoAvail
      (by decide) (by decide)⟩

/-- C7: under the serializable-transaction model the spec requires, two
checkout calls racing on the same available item code are equivalent to
the two serial orders, and in either order the first call succeeds and
the second fails with `ItemUnavailable`; never do both open a loan. -/
theorem concurrent_checkout_exclusive (pol : String → Core.Policy) (s : Core.LibState)
    (code b1 b2 : String) (now now2 : Int) (it : Core.Item)
    (hg : Core.getItem s code = some it) (hav : it.status = Core.Status.Available)
    (hc1 : Core.activeLoanCount s b1 it.itemType < (pol it.itemType).maxConcurrent)
    (hc2 : Core.activeLoanCount s b2 it.itemType < (pol it.itemType).maxConcurrent) :
    (∃ s1, Core.checkout pol s code b1 now = .ok s1 ∧
        Core.checkout pol s1 code b2 now2 = .error Core.CircError.ItemUnavailable) ∧
    (∃ s2, Core.checkout pol s code b2 now = .ok s2 ∧
        Core.checkout pol s2 code b1 now2 = .error Core.CircError.ItemUnavailable) := by
  have key : ∀ bX bY : String,
      Core.activeLoanCount s bX it.itemType < (pol it.itemType).maxConcurrent →
      ∃ s1, Core.checkout pol s code bX now = .ok s1 ∧
        Core.checkout pol s1 code bY now2 = .error Core.CircError.ItemUnavailable := by
    intro bX bY hcX
    refine ⟨_, Core.checkout_ok_explicit hg hav hcX, ?_⟩
    have hg2 := Core.getItem_updItem_self code
      (Core.checkoutUpd bX (now + (pol it.itemType).loanPeriod)) (fun i => rfl) s it hg
    exact Core.checkout_unavailable hg2 (by simp [Core.checkoutUpd])
  exact ⟨key b1 b2 hc1, key b2 b1 hc2⟩

/-- Witness for C7: two borrowers racing for the single available demo
book — each serial order has exactly one winner. -/
theorem concurrent_checkout_exclusive_witness :
    (∃ s1, Core.checkout Core.demoPolicies Core.demoS0 "BK-001" "U1" 0 = .ok s1 ∧
        Core.checkout Core.demoPolicies s1 "BK-001" "U2" 0 =
          .error Core.CircError.ItemUnavailable) ∧
    (∃ s2, Core.checkout Core.demoPolicies Core.demoS0 "BK-001" "U2" 0 = .ok s2 ∧
        Core.checkout Core.demoPolicies s2 "BK-001" "U1" 0 =
          .error Core.CircError.ItemUnavailable) :=
  concurrent_checkout_exclusive Core.demoPolicies Core.demoS0 "BK-001" "U1" "U2" 0 0
    Core.demoAvail (by decide) (by decide) (by decide) (by decide)

/-- C8: a renew whose caller-supplied borrower differs from the borrower
on the item's open loan fails with `BorrowerMismatch` (an error result
carries no state change in the model), and a renew succeeds only when
the supplied borrower matches the loan's borrower. -/
theorem renew_borrower_mismatch :
    (∀ (pol : String → Core.Policy) (s : Core.LibState) (code b : String) (now : Int)
        (it : Core.Item) (l : Core.Loan),
        Core.getItem s code = some it → Core.openLoan s code = some l →
        l.borrowerId ≠ b →
        Core.renewItem pol s code b now = .error Core.CircError.BorrowerMismatch) ∧
    (∀ (pol : String → Core.Policy) (s s2 : Core.LibState) (code b : String) (now : Int),
        Core.renewItem pol s code b now = .ok s2 →
        ∃ l, Core.openLoan s code = some l ∧ l.borrowerId = b) := by
  constructor
  · intro pol s code b now it l hg ho hne
    unfold Core.renewItem
    rw [hg, ho]
    simp [hne]
  · intro pol s s2 code b now h
    obtain ⟨it, l, hg, ho, hb, _, _, _, _⟩ := Core.renewItem_ok_elim h
    exact ⟨l, ho, hb⟩

/-- Witness for C8: U2 attempting to renew U1's loan fails with
`BorrowerMismatch`. -/
theorem renew_borrower_mismatch_witness :
    Core.renewItem Core.demoPolicies Core.demoS1 "BK-001" "U2" 0 =
      .error Core.CircError.BorrowerMismatch :=
  renew_borrower_mismatch.1 Core.demoPolicies Core.demoS1 "BK-001" "U2" 0
    Core.demoLoanedItem Core.demoLoan (by decide) (by decide) (by decide)
